import Mathlib

/-!
Verification of the TCP transport layer of `raft-rs` (`src/network.rs`).

The Rust code is embedded shallowly: the mutable fields of `TCPManager`
(the optional listener handle and the boolean open flag) become a record
threaded explicitly through every operation, and every interaction with
the operating system or runtime (socket-address parsing, binding, dialing,
stream reads and writes) is a field of an environment record `NetEnv`, so
theorems quantify over every possible outcome of those interactions.
Logging has no semantic effect and is omitted.
-/

namespace RaftRs

/-- A parsed socket address (Rust `std::net::SocketAddr`). The transport
only passes these through to bind and connect, so the host text and a
numeric port are all that is kept. -/
structure SocketAddr where
  host : String
  portNum : Nat
deriving DecidableEq, Repr

/-- Handle standing for a bound listening socket (Rust `tokio::net::TcpListener`). -/
abbrev TcpListener := Nat

/-- Handle standing for a connected stream (Rust `tokio::net::TcpStream`). -/
abbrev TcpStream := Nat

/-- Errors the transport can return. The source returns boxed dynamic
errors; the two explicit ones are string messages (`msg`), and the
runtime-produced ones are classified by where they arise. -/
inductive NetError where
  | msg (s : String)
  | parseFail
  | bindFail
  | connectFail
  | ioFail
deriving DecidableEq, Repr

/-- The runtime and operating-system behaviour the transport runs against.
Each field models one external call, so a theorem quantified over `NetEnv`
covers every success and failure pattern of those calls.
`parse_ip_address` is the external AddressResolver from the crate root,
not part of `src/network.rs`; the spec describes it as a pure total
function splitting an address token into a host and a port, and it is kept
abstract here. -/
structure NetEnv where
  parseSock : String → Option SocketAddr
  bindTo : SocketAddr → Except NetError TcpListener
  connectTo : SocketAddr → Except NetError TcpStream
  writeAll : TcpStream → List UInt8 → Except NetError Unit
  acceptOn : TcpListener → Except NetError TcpStream
  readToEnd : TcpStream → Except NetError (List UInt8)
  parse_ip_address : String → String × String

/-- Rust `format!` of `"a:b"` used to build the textual socket address. -/
def formatAddr (host portStr : String) : String :=
  host ++ ":" ++ portStr

/-- The transport state: configured local address and port, the guarded
optional listener handle, and the guarded open flag
(`TCPManager` in `src/network.rs`, without the logger). -/
structure TCPManager where
  address : String
  port : Nat
  listener : Option TcpListener
  is_open : Bool
deriving DecidableEq, Repr

/-- `TCPManager::new`: starts with no listener and the open flag false. -/
def TCPManager.new (address : String) (port : Nat) : TCPManager :=
  { address := address, port := port, listener := none, is_open := false }

/-- `TCPManager::async_send`: dial the address, then write the whole
payload; either step's failure is propagated. -/
def TCPManager.async_send (env : NetEnv) (data : List UInt8)
    (addr : SocketAddr) : Except NetError Unit :=
  match env.connectTo addr with
  | .error e => .error e
  | .ok stream =>
    match env.writeAll stream data with
    | .error e => .error e
    | .ok () => .ok ()

/-- `TCPManager::handle_receive`: with a listener present, accept one
connection and read it to end-of-stream; with no listener, return the
initial empty buffer successfully. The state is never written. -/
def TCPManager.handle_receive (self : TCPManager) (env : NetEnv) :
    Except NetError (List UInt8) × TCPManager :=
  match self.listener with
  | none => (.ok [], self)
  | some l =>
    match env.acceptOn l with
    | .error e => (.error e, self)
    | .ok stream =>
      match env.readToEnd stream with
      | .error e => (.error e, self)
      | .ok buffer => (.ok buffer, self)

/-- `NetworkLayer::send` for `TCPManager`: parse `host:port`, then
`async_send`. Reads neither the listener nor the open flag. -/
def TCPManager.send (self : TCPManager) (env : NetEnv)
    (address portStr : String) (data : List UInt8) :
    Except NetError Unit × TCPManager :=
  match env.parseSock (formatAddr address portStr) with
  | none => (.error .parseFail, self)
  | some addr =>
    match TCPManager.async_send env data addr with
    | .error e => (.error e, self)
    | .ok () => (.ok (), self)

/-- `NetworkLayer::receive` for `TCPManager`: delegates to `handle_receive`. -/
def TCPManager.receive (self : TCPManager) (env : NetEnv) :
    Except NetError (List UInt8) × TCPManager :=
  self.handle_receive env

/-- Result of `broadcast`. Rust `.parse().unwrap()` panics rather than
returning an error, so a third outcome is needed beside success and a
returned error. -/
inductive Outcome (α : Type) where
  | ok (a : α)
  | err (e : NetError)
  | panicked
deriving DecidableEq, Repr

/-- The address-resolution pass of `broadcast`: each token goes through
`parse_ip_address` and then socket-address parsing. `none` when any token
fails to parse, which in the source is an `unwrap` panic raised while the
futures are being collected, before any send has run. -/
def parseAll (env : NetEnv) : List String → Option (List SocketAddr)
  | [] => some []
  | address :: rest =>
    let ipPort := env.parse_ip_address address
    match env.parseSock (formatAddr ipPort.1 ipPort.2) with
    | none => none
    | some a =>
      match parseAll env rest with
      | none => none
      | some as => some (a :: as)

/-- Rust `collect::<Result<_, _>>()` over the joined send results: `ok`
if every element is `ok`, otherwise the first error in list order. -/
def collectResults : List (Except NetError Unit) → Except NetError Unit
  | [] => .ok ()
  | r :: rest =>
    match r with
    | .error e => .error e
    | .ok () => collectResults rest

/-- `NetworkLayer::broadcast` for `TCPManager`: resolve every address
(panicking on a parse failure), run `async_send` against each, and
collect the results, first error winning. The state is never written. -/
def TCPManager.broadcast (self : TCPManager) (env : NetEnv)
    (data : List UInt8) (addresses : List String) :
    Outcome Unit × TCPManager :=
  match parseAll env addresses with
  | none => (.panicked, self)
  | some addrs =>
    match collectResults (addrs.map (TCPManager.async_send env data)) with
    | .error e => (.err e, self)
    | .ok () => (.ok (), self)

/-- `NetworkLayer::open` for `TCPManager`: rejected with a message when the
flag is already true; otherwise parse the configured address, bind, store
the listener and set the flag. Errors leave the state untouched. -/
def TCPManager.«open» (self : TCPManager) (env : NetEnv) :
    Except NetError Unit × TCPManager :=
  if self.is_open then
    (.error (.msg "Listener is already open"), self)
  else
    match env.parseSock (formatAddr self.address (toString self.port)) with
    | none => (.error .parseFail, self)
    | some addr =>
      match env.bindTo addr with
      | .error e => (.error e, self)
      | .ok l =>
        (.ok (), { self with listener := some l, is_open := true })

/-- `NetworkLayer::close` for `TCPManager`: rejected with a message when
the flag is already false; otherwise clear the listener and the flag. -/
def TCPManager.close (self : TCPManager) (_env : NetEnv) :
    Except NetError Unit × TCPManager :=
  if !self.is_open then
    (.error (.msg "Listener is not open"), self)
  else
    (.ok (), { self with listener := none, is_open := false })

/-- The lifecycle invariant from the spec: the open flag is true exactly
when a listener handle is present. -/
def lifecycleInv (m : TCPManager) : Prop :=
  m.is_open = m.listener.isSome

instance (m : TCPManager) : Decidable (lifecycleInv m) := by
  unfold lifecycleInv; infer_instance

/-- A concrete environment where every external call succeeds: each
textual address parses to itself with port 0. Used for witnesses. -/
def envUp : NetEnv where
  parseSock := fun s => some { host := s, portNum := 0 }
  bindTo := fun _ => .ok 0
  connectTo := fun _ => .ok 0
  writeAll := fun _ _ => .ok ()
  acceptOn := fun _ => .ok 1
  readToEnd := fun _ => .ok [1, 2, 3]
  parse_ip_address := fun s => (s, "0")

/-- Like `envUp`, but dialing the peer resolved from the token `"bad"`
fails with a connect error. Used for witnesses. -/
def envMixed : NetEnv :=
  { envUp with
    connectTo := fun a =>
      if a.host = "bad:0" then .error .connectFail else .ok 0 }

/-- Like `envUp`, but no string parses as a socket address.
Used for witnesses. -/
def envNoParse : NetEnv :=
  { envUp with parseSock := fun _ => none }

/-- A transport in the open state with a listener handle, for witnesses. -/
def mOpen : TCPManager :=
  { address := "127.0.0.1", port := 8082, listener := some 0, is_open := true }

/-- A freshly constructed, closed transport, for witnesses. -/
def mClosed : TCPManager :=
  TCPManager.new "127.0.0.1" 8082

theorem send_snd (m : TCPManager) (env : NetEnv) (address portStr : String)
    (data : List UInt8) : (m.send env address portStr data).2 = m := by
  unfold TCPManager.send
  split
  · rfl
  · split <;> rfl

theorem receive_snd (m : TCPManager) (env : NetEnv) :
    (m.receive env).2 = m := by
  unfold TCPManager.receive TCPManager.handle_receive
  split
  · rfl
  · split
    · rfl
    · split <;> rfl

theorem broadcast_snd (m : TCPManager) (env : NetEnv) (data : List UInt8)
    (addresses : List String) : (m.broadcast env data addresses).2 = m := by
  unfold TCPManager.broadcast
  split
  · rfl
  · split <;> rfl

/-- Claim C1: the invariant that the open flag is true exactly when a
listener handle is present holds for a freshly constructed transport and
is preserved by open, close, send, receive and broadcast, on success and
error paths alike (quantifying over every environment behaviour). -/
theorem lifecycleInv_preserved (env : NetEnv) (m : TCPManager)
    (a host portStr : String) (p : Nat) (data : List UInt8)
    (addresses : List String) (h : lifecycleInv m) :
    lifecycleInv (TCPManager.new a p) ∧
    lifecycleInv (m.«open» env).2 ∧
    lifecycleInv (m.close env).2 ∧
    lifecycleInv (m.send env host portStr data).2 ∧
    lifecycleInv (m.receive env).2 ∧
    lifecycleInv (m.broadcast env data addresses).2 := by
  refine ⟨by simp [lifecycleInv, TCPManager.new], ?_, ?_, ?_, ?_, ?_⟩
  · unfold TCPManager.«open»
    split
    · exact h
    · split
      · exact h
      · split
        · exact h
        · simp [lifecycleInv]
  · unfold TCPManager.close
    split
    · exact h
    · simp [lifecycleInv]
  · rw [send_snd]; exact h
  · rw [receive_snd]; exact h
  · rw [broadcast_snd]; exact h

theorem lifecycleInv_preserved_witness :
    lifecycleInv (mOpen.«open» envUp).2 ∧ lifecycleInv (mOpen.close envUp).2 :=
  ⟨(lifecycleInv_preserved envUp mOpen "a" "h" "1" 1 [] [] (by decide)).2.1,
   (lifecycleInv_preserved envUp mOpen "a" "h" "1" 1 [] [] (by decide)).2.2.1⟩

/-- Claim C2: open on an already-open transport returns exactly the
already-open error with the state unchanged, and close on an already-closed
transport returns exactly the not-open error with the state unchanged; in
no environment is either call silently idempotent. -/
theorem open_close_reject (env : NetEnv) (m : TCPManager) :
    (m.is_open = true →
      m.«open» env = (.error (.msg "Listener is already open"), m)) ∧
    (m.is_open = false →
      m.close env = (.error (.msg "Listener is not open"), m)) := by
  constructor
  · intro h
    unfold TCPManager.«open»
    simp [h]
  · intro h
    unfold TCPManager.close
    simp [h]

theorem open_close_reject_witness :
    mOpen.«open» envUp = (.error (.msg "Listener is already open"), mOpen) ∧
    mClosed.close envUp = (.error (.msg "Listener is not open"), mClosed) :=
  ⟨(open_close_reject envUp mOpen).1 rfl,
   (open_close_reject envUp mClosed).2 rfl⟩

/-- Claim C3: whenever open or close returns an error — already-open,
not-open, address-parse failure or bind failure, i.e. in any environment —
the open flag and the listener handle are exactly as before the call;
they change only on the success path. -/
theorem open_close_error_frame (env : NetEnv) (m : TCPManager) (e : NetError) :
    ((m.«open» env).1 = .error e → (m.«open» env).2 = m) ∧
    ((m.close env).1 = .error e → (m.close env).2 = m) := by
  constructor
  · unfold TCPManager.«open»
    split
    · intro _; rfl
    · split
      · intro _; rfl
      · split
        · intro _; rfl
        · intro hcontra; simp at hcontra
  · unfold TCPManager.close
    split
    · intro _; rfl
    · intro hcontra; simp at hcontra

theorem open_close_error_frame_witness :
    (mClosed.«open» envNoParse).2 = mClosed ∧ (mClosed.close envUp).2 = mClosed :=
  ⟨(open_close_error_frame envNoParse mClosed .parseFail).1 rfl,
   (open_close_error_frame envUp mClosed (.msg "Listener is not open")).2 rfl⟩

theorem collect_map_ok (f : SocketAddr → Except NetError Unit)
    (addrs : List SocketAddr) :
    collectResults (addrs.map f) = .ok () ↔ ∀ a ∈ addrs, f a = .ok () := by
  induction addrs with
  | nil => simp [collectResults]
  | cons a rest ih =>
    cases hfa : f a with
    | error e2 => simp [collectResults, hfa]
    | ok u => cases u; simp [collectResults, hfa, ih]

theorem collect_map_error (f : SocketAddr → Except NetError Unit)
    (addrs : List SocketAddr) (e : NetError) :
    collectResults (addrs.map f) = .error e →
    ∃ pre a post, addrs = pre ++ a :: post ∧
      (∀ b ∈ pre, f b = .ok ()) ∧ f a = .error e := by
  induction addrs with
  | nil => intro h; simp [collectResults] at h
  | cons a rest ih =>
    intro h
    cases hfa : f a with
    | error e2 =>
      simp [collectResults, hfa] at h
      exact ⟨[], a, rest, rfl, by simp, by rw [hfa, h]⟩
    | ok u =>
      cases u
      simp only [List.map_cons, collectResults, hfa] at h
      obtain ⟨pre, b, post, h1, h2, h3⟩ := ih h
      refine ⟨a :: pre, b, post, by simp [h1], ?_, h3⟩
      intro x hx
      rcases List.mem_cons.mp hx with hx | hx
      · rw [hx]; exact hfa
      · exact h2 x hx

/-- Claim C4: whenever every address token resolves and parses (otherwise
broadcast panics instead, claim C9), broadcast returns ok exactly when
every constituent send succeeds; on failure it returns, verbatim and with
no peer information attached, the error of the first failing send in
address-list order. -/
theorem broadcast_first_error (env : NetEnv) (m : TCPManager)
    (data : List UInt8) (addresses : List String) (addrs : List SocketAddr)
    (hp : parseAll env addresses = some addrs) :
    ((m.broadcast env data addresses).1 = .ok () ↔
      ∀ a ∈ addrs, TCPManager.async_send env data a = .ok ()) ∧
    (∀ e, (m.broadcast env data addresses).1 = .err e →
      ∃ pre a post, addrs = pre ++ a :: post ∧
        (∀ b ∈ pre, TCPManager.async_send env data b = .ok ()) ∧
        TCPManager.async_send env data a = .error e) := by
  unfold TCPManager.broadcast
  rw [hp]
  cases hres : collectResults (addrs.map (TCPManager.async_send env data)) with
  | error e =>
    simp only [hres]
    constructor
    · constructor
      · intro hcontra; simp at hcontra
      · intro hall
        have hok := (collect_map_ok (TCPManager.async_send env data) addrs).mpr hall
        rw [hres] at hok
        cases hok
    · intro e2 he2
      have : e = e2 := by simpa using he2
      subst this
      exact collect_map_error (TCPManager.async_send env data) addrs e hres
  | ok u =>
    cases u
    simp only [hres]
    constructor
    · exact ⟨fun _ => (collect_map_ok (TCPManager.async_send env data) addrs).mp hres,
        fun _ => by trivial⟩
    · intro e2 he2; simp at he2

theorem broadcast_first_error_witness :
    ((mClosed.broadcast envMixed [1] ["good", "bad"]).1 = .ok () ↔
      ∀ a ∈ [SocketAddr.mk "good:0" 0, SocketAddr.mk "bad:0" 0],
        TCPManager.async_send envMixed [1] a = .ok ()) :=
  (broadcast_first_error envMixed mClosed [1] ["good", "bad"]
    [⟨"good:0", 0⟩, ⟨"bad:0", 0⟩] (by decide)).1

/-- Claim C5: receive on a transport with no listener handle returns ok
with an empty payload, leaving the state unchanged, in every environment —
it never errors, and being a total function of the state and environment
it does so on every such call. -/
theorem receive_no_listener (env : NetEnv) (m : TCPManager)
    (h : m.listener = none) : m.receive env = (.ok [], m) := by
  unfold TCPManager.receive TCPManager.handle_receive
  rw [h]

theorem receive_no_listener_witness :
    mClosed.receive envUp = (.ok [], mClosed) :=
  receive_no_listener envUp mClosed rfl

/-- Claim C7: the result of send is independent of the transport's
lifecycle state: for any two states — open, closed, or anything else —
the same host, port, payload and environment give the same result. -/
theorem send_state_independent (env : NetEnv) (m1 m2 : TCPManager)
    (address portStr : String) (data : List UInt8) :
    (m1.send env address portStr data).1 = (m2.send env address portStr data).1 := by
  unfold TCPManager.send
  split
  · rfl
  · split <;> rfl

/-- Claim C9: broadcast on an address token whose resolved host and port
do not parse as a socket address panics through the unchecked unwrap: the
outcome is a panic, not an error value surfaced through the Result. -/
theorem broadcast_parse_panic :
    (mClosed.broadcast envNoParse [1, 2, 3] ["nonsense"]).1 = .panicked :=
  rfl

/-- Claim C10: send, receive and broadcast never modify the open flag or
the listener handle: in every environment, on success and error paths
alike, the state after each call equals the state before. -/
theorem no_lifecycle_mutation (env : NetEnv) (m : TCPManager)
    (address portStr : String) (data : List UInt8) (addresses : List String) :
    (m.send env address portStr data).2 = m ∧
    (m.receive env).2 = m ∧
    (m.broadcast env data addresses).2 = m :=
  ⟨send_snd m env address portStr data, receive_snd m env,
   broadcast_snd m env data addresses⟩

end RaftRs
